import Mathlib

/-!
Verification development for the Gigacharger controller
(`gigacharger_utils.js`): the login / session-cookie extraction
(`obtainGigachargerSessionID`) and the charging-authorization flow
(`authorizeCharging`), embedded shallowly over `List Char` strings,
an explicit event trace for the WebSocket phase, and JavaScript
`Promise` settlement modelled as "first resolve/reject call wins".
-/

namespace Giga

/-- Decides whether `p` is a prefix of `s`; mirrors a JavaScript
substring comparison at position 0. -/
def startsWith : List Char → List Char → Bool
  | _, [] => true
  | [], _ :: _ => false
  | a :: s, b :: p => a == b && startsWith s p

/-- JavaScript `s.includes(pat)`: `pat` occurs somewhere in `s`
(always true for the empty pattern). -/
def containsSub (pat : List Char) : List Char → Bool
  | [] => startsWith [] pat
  | c :: rest => startsWith (c :: rest) pat || containsSub pat rest

/-- Core of JavaScript `String.prototype.split` with a non-empty
separator: chunks between consecutive leftmost occurrences.  The
`skip` counter consumes the characters of a separator occurrence that
was already recognised, keeping the recursion structural on the
string: at `skip = 0` and an occurrence of `sep`, a chunk boundary is
emitted and the separator's remaining characters are scheduled to be
consumed. -/
def jsSplitCore (sep : List Char) : List Char → Nat → List (List Char)
  | [], _ => [[]]
  | _ :: rest, n + 1 => jsSplitCore sep rest n
  | c :: rest, 0 =>
    if startsWith (c :: rest) sep then
      [] :: jsSplitCore sep rest (sep.length - 1)
    else
      match jsSplitCore sep rest 0 with
      | [] => [[c]]
      | x :: xs => (c :: x) :: xs

/-- JavaScript `s.split(sep)` (for an empty separator the string is
split into its characters, as in JavaScript). -/
def jsSplit (s sep : List Char) : List (List Char) :=
  match sep with
  | [] => s.map (fun c => [c])
  | _ :: _ => jsSplitCore sep s 0

/-- A JavaScript number as it is produced by `Number(string)`:
either NaN, an infinity, or a finite value (modelled exactly as a
rational, abstracting from IEEE-754 rounding). -/
inductive JSNum where
  | nan : JSNum
  | inf : JSNum
  | negInf : JSNum
  | num (q : ℚ) : JSNum
deriving DecidableEq, Repr

/-- Division of a JavaScript number by a positive integer constant,
as in `resultArray[1] / 1000`: NaN stays NaN, infinities keep their
sign, finite values divide exactly
(`q / n = mkRat q.num (q.den * n)` for `n > 0`). -/
def JSNum.divConst : JSNum → Nat → JSNum
  | .nan, _ => .nan
  | .inf, _ => .inf
  | .negInf, _ => .negInf
  | .num q, n => .num (mkRat q.num (q.den * n))

/-- The whitespace characters stripped by JavaScript `ToNumber`
(ASCII range). -/
def isJsSpace (c : Char) : Bool :=
  c == ' ' || c == '\t' || c == '\n' || c == '\r' || c == '\x0b' || c == '\x0c'

/-- Strips JavaScript whitespace from both ends of a string. -/
def jsTrim (s : List Char) : List Char :=
  ((s.dropWhile isJsSpace).reverse.dropWhile isJsSpace).reverse

/-- Value of a list of decimal digits. -/
def digitsToNat (ds : List Char) : Nat :=
  ds.foldl (fun a c => 10 * a + (c.toNat - 48)) 0

/-- Hexadecimal digit test. -/
def isHexDigit (c : Char) : Bool :=
  c.isDigit || ('a' ≤ c && c ≤ 'f') || ('A' ≤ c && c ≤ 'F')

/-- Value of one hexadecimal digit. -/
def hexVal (c : Char) : Nat :=
  if c.isDigit then c.toNat - 48
  else if 'a' ≤ c && c ≤ 'f' then c.toNat - 87
  else c.toNat - 55

/-- Value of a list of hexadecimal digits. -/
def hexToNat (ds : List Char) : Nat :=
  ds.foldl (fun a c => 16 * a + hexVal c) 0

/-- Octal digit test. -/
def isOctDigit (c : Char) : Bool :=
  '0' ≤ c && c ≤ '7'

/-- Value of a list of octal digits. -/
def octToNat (ds : List Char) : Nat :=
  ds.foldl (fun a c => 8 * a + (c.toNat - 48)) 0

/-- Binary digit test. -/
def isBinDigit (c : Char) : Bool :=
  c == '0' || c == '1'

/-- Value of a list of binary digits. -/
def binToNat (ds : List Char) : Nat :=
  ds.foldl (fun a c => 2 * a + (c.toNat - 48)) 0

/-- An unsigned decimal numeric literal (`digits [. digits] [e sign
digits]`, at least one digit), as accepted by JavaScript `ToNumber`;
`none` when the string is not entirely such a literal. -/
def parseDecForm (s : List Char) : Option ℚ :=
  let intD := s.takeWhile Char.isDigit
  let rest1 := s.dropWhile Char.isDigit
  let fracD := match rest1 with
    | '.' :: tl => tl.takeWhile Char.isDigit
    | _ => []
  let rest2 := match rest1 with
    | '.' :: tl => tl.dropWhile Char.isDigit
    | _ => rest1
  if intD.isEmpty && fracD.isEmpty then none
  else
    let den : Nat := Nat.pow 10 fracD.length
    let baseNum : Nat := digitsToNat intD * den + digitsToNat fracD
    match rest2 with
    | [] => some (mkRat (baseNum : Int) den)
    | e :: tl =>
      if e == 'e' || e == 'E' then
        let eneg : Bool := match tl with
          | '-' :: _ => true
          | _ => false
        let ed := match tl with
          | '+' :: tl2 => tl2
          | '-' :: tl2 => tl2
          | _ => tl
        if !ed.isEmpty && ed.all Char.isDigit then
          let ex : Nat := digitsToNat ed
          if eneg then some (mkRat (baseNum : Int) (den * Nat.pow 10 ex))
          else some (mkRat ((baseNum * Nat.pow 10 ex : Nat) : Int) den)
        else none
      else none

/-- A signed decimal literal or `Infinity`, after trimming; anything
else is NaN. -/
def decSigned (t : List Char) : JSNum :=
  let neg : Bool := match t with
    | '-' :: _ => true
    | _ => false
  let u := match t with
    | '+' :: tl => tl
    | '-' :: tl => tl
    | _ => t
  if u = ("Infinity").data then (if neg then JSNum.negInf else JSNum.inf)
  else
    match parseDecForm u with
    | some q => JSNum.num (if neg then Rat.neg q else q)
    | none => JSNum.nan

/-- JavaScript `Number(string)` restricted to string arguments:
trimmed empty string is 0; `0x`/`0o`/`0b` radix literals (unsigned);
otherwise a signed decimal literal or `Infinity`; anything else NaN. -/
def jsToNumber (s : List Char) : JSNum :=
  let t := jsTrim s
  if t.isEmpty then JSNum.num 0
  else
    match t with
    | '0' :: c :: rest =>
      if (c == 'x' || c == 'X') && !rest.isEmpty && rest.all isHexDigit then
        JSNum.num (hexToNat rest : ℚ)
      else if (c == 'o' || c == 'O') && !rest.isEmpty && rest.all isOctDigit then
        JSNum.num (octToNat rest : ℚ)
      else if (c == 'b' || c == 'B') && !rest.isEmpty && rest.all isBinDigit then
        JSNum.num (binToNat rest : ℚ)
      else decSigned t
    | _ => decSigned t

/-- Splits a string at its first `]`: the characters before it, and
`some` remainder after it when a `]` exists. -/
def splitAtRB : List Char → List Char × Option (List Char)
  | [] => ([], none)
  | c :: rest =>
    if c == ']' then ([], some rest)
    else
      let pr := splitAtRB rest
      (c :: pr.1, pr.2)

/-- JavaScript `data.match(/\[([^\]]+)\]/)`, returning the first
capture group: the leftmost `[` followed by a non-empty run of
non-`]` characters and then a `]`; greedy matching makes the capture
run exactly up to the first `]` after that `[`. -/
def jsMatchBracket : List Char → Option (List Char)
  | [] => none
  | c :: rest =>
    if c == '[' then
      match splitAtRB rest with
      | (chunk, some _) => if chunk.isEmpty then jsMatchBracket rest else some chunk
      | (_, none) => jsMatchBracket rest
    else jsMatchBracket rest

/-- The cookie-name substring searched for by
`cookies.find(cookie => cookie.includes("manix-sess"))`. -/
def mSess : List Char := ("manix-sess").data

/-- The separator of `sessionCookie.split("manix-sess=")`. -/
def mSessEq : List Char := ("manix-sess=").data

/-- How `obtainGigachargerSessionID` fails: no `manix-sess` cookie in
the response (`missingCookie`, the thrown "no session cookie found"
error), or the JavaScript `TypeError` raised when `split("manix-sess=")`
yields no second element to call `.split(";")` on. -/
inductive LoginFailureKind where
  | missingCookie : LoginFailureKind
  | typeErr : LoginFailureKind
deriving DecidableEq, Repr

/-- Result of the login call: the returned session token, or the kind
of exception thrown. -/
inductive LoginResult where
  | ok (token : List Char) : LoginResult
  | err (kind : LoginFailureKind) : LoginResult
deriving DecidableEq, Repr

/-- The cookie-handling tail of `obtainGigachargerSessionID`, applied
to the `set-cookie` headers of the login response: find the first
header containing `manix-sess`, throw if none, otherwise return
`cookie.split("manix-sess=")[1].split(";")[0]`. -/
def obtainGigachargerSessionID (cookies : List (List Char)) : LoginResult :=
  match cookies.find? (fun c => containsSub mSess c) with
  | none => LoginResult.err LoginFailureKind.missingCookie
  | some sessionCookie =>
    match jsSplit sessionCookie mSessEq with
    | _ :: x :: _ => LoginResult.ok ((jsSplit x [';']).headD [])
    | _ => LoginResult.err LoginFailureKind.typeErr

/-- The value carried by the single settlement of the promise returned
by `authorizeCharging`: `success` for `resolve()` (which carries no
payload), and one constructor for each distinct `reject` reason in the
source. -/
inductive ChargeOutcome where
  | success : ChargeOutcome
  | noChargerID : ChargeOutcome
  | noCredentials : ChargeOutcome
  | loginFailed : ChargeOutcome
  | sendError : ChargeOutcome
  | connectError : ChargeOutcome
  | unexpectedClosure : ChargeOutcome
  | timedOut : ChargeOutcome
deriving DecidableEq, Repr

/-- One WebSocket event delivered to the handlers registered by
`authorizeCharging`: the `open` event (with the success flag passed to
the `send` callback), a `message` with its text, an `error`, or a
`close` with its code. -/
inductive WsEvent where
  | connOpen (sendOk : Bool) : WsEvent
  | message (data : List Char) : WsEvent
  | errorEvt : WsEvent
  | closeEvt (code : Nat) : WsEvent
deriving DecidableEq, Repr

/-- A log line written by the `message` handler: the raw response
line, or the `Energy transfer: ... kWh` line with its computed value. -/
inductive LogLine where
  | response (data : List Char) : LogLine
  | energy (value : JSNum) : LogLine
deriving DecidableEq, Repr

/-- The energy figure the `message` handler computes for the log:
when the regex matches, the capture is split on commas, mapped through
`Number`, indexed at 1 (undefined becomes NaN) and divided by 1000;
`none` when the regex does not match (no energy line is logged). -/
def energyOf (data : List Char) : Option JSNum :=
  match jsMatchBracket data with
  | some arrayString =>
    some (JSNum.divConst (((jsSplit arrayString [',']).map jsToNumber).getD 1 JSNum.nan) 1000)
  | none => none

/-- The `message` handler: log the raw response, log the energy figure
when the regex matches, then `resolve()` unconditionally. -/
def messageHandler (data : List Char) : List LogLine × Option ChargeOutcome :=
  (LogLine.response data ::
    (match energyOf data with
     | some v => [LogLine.energy v]
     | none => []),
   some ChargeOutcome.success)

/-- The resolve/reject call (if any) made by the handler of one
WebSocket event: `open` rejects only when `send` reports an error;
`message` resolves success; `error` rejects; `close` rejects with the
timeout error on code 1000 and with unexpected closure otherwise. -/
def handleEvent : WsEvent → Option ChargeOutcome
  | .connOpen sendOk => if sendOk then none else some ChargeOutcome.sendError
  | .message data => (messageHandler data).2
  | .errorEvt => some ChargeOutcome.connectError
  | .closeEvt code =>
    if code = 1000 then some ChargeOutcome.timedOut
    else some ChargeOutcome.unexpectedClosure

/-- All resolve/reject calls made while a list of WebSocket events is
delivered, in order. -/
def settleCalls (events : List WsEvent) : List ChargeOutcome :=
  events.filterMap handleEvent

/-- The close code passed in `setTimeout(() => { webSocket.close(1000) },
40000)`. -/
def timeoutCloseCode : Nat := 1000

/-- The 40-second timer firing: the socket is force-closed with the
normal-closure code, which delivers the corresponding `close` event
after the events seen so far. -/
def timerFire (events : List WsEvent) : List WsEvent :=
  events ++ [WsEvent.closeEvt timeoutCloseCode]

/-- JavaScript template-literal interpolation of a possibly-undefined
string value: `undefined` prints as the text `undefined`. -/
def jsStr (v : Option String) : String :=
  v.getD "undefined"

/-- The frame built and sent by the `open` handler:
`["drain/start","<chargerID>"]`. -/
def chargeCommand (chargerID : Option String) : String :=
  "[\"drain/start\",\"" ++ jsStr chargerID ++ "\"]"

/-- The frames sent on the channel when one event is handled: only the
`open` handler sends, and it sends the charge command once. -/
def eventSends (chargerID : Option String) : WsEvent → List String
  | .connOpen _ => [chargeCommand chargerID]
  | _ => []

/-- All frames sent on the channel over a whole event trace, in
order. -/
def allSends (chargerID : Option String) : List WsEvent → List String
  | [] => []
  | e :: es => eventSends chargerID e ++ allSends chargerID es

/-- Tests whether an event is a connection-open event. -/
def isOpenEvt : WsEvent → Bool
  | .connOpen _ => true
  | _ => false

/-- JavaScript falsiness of a possibly-undefined string environment
value (`!v`): undefined and the empty string are falsy. -/
def jsFalsy : Option String → Bool
  | none => true
  | some s => s.isEmpty

/-- The environment `authorizeCharging` reads: the three configuration
values, and the outcome of the (external) login HTTP call:
`some token` when `obtainGigachargerSessionID` would return that
token, `none` when it would throw. -/
structure AuthEnv where
  chargerID : Option String
  email : Option String
  password : Option String
  loginReply : Option String
deriving DecidableEq, Repr

/-- A side effect `authorizeCharging` performs: the login HTTP call,
or opening the WebSocket (carrying the session value put in its
`Cookie` header). -/
inductive AuthAction where
  | login : AuthAction
  | openSocket (sess : Option String) : AuthAction
deriving DecidableEq, Repr

/-- What one invocation of `authorizeCharging` does before any
WebSocket event is delivered: the side effects in order, the
resolve/reject calls made synchronously by the orchestration code in
order, and the new value of the module-level
`savedGigachargerSessionID`. -/
structure AuthResult where
  actions : List AuthAction
  settles : List ChargeOutcome
  newSaved : Option String
deriving DecidableEq, Repr

/-- The orchestration of `authorizeCharging`, over the module state
`saved` (= `savedGigachargerSessionID`).  Faithful to the source: a
missing charger id rejects but execution continues (no `return`);
missing credentials reject but the login call is still made; a failed
login rejects but the WebSocket is still opened with the old (falsy)
saved value. -/
def authorizeCharging (env : AuthEnv) (saved : Option String) : AuthResult :=
  let cfgSettles := if jsFalsy env.chargerID then [ChargeOutcome.noChargerID] else []
  if jsFalsy saved then
    let credSettles :=
      if jsFalsy env.email || jsFalsy env.password then [ChargeOutcome.noCredentials] else []
    match env.loginReply with
    | some tok =>
      { actions := [AuthAction.login, AuthAction.openSocket (some tok)]
        settles := cfgSettles ++ credSettles
        newSaved := some tok }
    | none =>
      { actions := [AuthAction.login, AuthAction.openSocket saved]
        settles := cfgSettles ++ credSettles ++ [ChargeOutcome.loginFailed]
        newSaved := saved }
  else
    { actions := [AuthAction.openSocket saved]
      settles := cfgSettles
      newSaved := saved }

/-- The settlement of the promise returned by `authorizeCharging` for
a given environment, initial saved session and WebSocket event trace:
a JavaScript promise keeps the first resolve/reject call and ignores
all later ones. -/
def fullRun (env : AuthEnv) (saved : Option String) (events : List WsEvent) :
    Option ChargeOutcome :=
  ((authorizeCharging env saved).settles ++ settleCalls events).head?

/-! ### Helper lemmas -/

theorem startsWith_append_self (p s : List Char) : startsWith (p ++ s) p = true := by
  induction p with
  | nil => cases s <;> rfl
  | cons a p ih => simp [startsWith, ih]

theorem containsSub_eq (pat : List Char) (s : List Char) :
    containsSub pat s = (startsWith s pat || match s with
      | [] => false
      | _ :: rest => containsSub pat rest) := by
  cases s with
  | nil => cases pat <;> simp [containsSub, startsWith]
  | cons c rest => rfl

theorem containsSub_of_startsWith {pat s : List Char} (h : startsWith s pat = true) :
    containsSub pat s = true := by
  rw [containsSub_eq, h, Bool.true_or]

theorem containsSub_cons_false {pat : List Char} {c : Char} {rest : List Char}
    (h : containsSub pat (c :: rest) = false) :
    startsWith (c :: rest) pat = false ∧ containsSub pat rest = false := by
  simpa [containsSub, Bool.or_eq_false_iff] using h

theorem jsSplitCore_skip (sep pre rest : List Char) :
    jsSplitCore sep (pre ++ rest) pre.length = jsSplitCore sep rest 0 := by
  induction pre with
  | nil => rfl
  | cons a pre ih => simpa [jsSplitCore] using ih

theorem jsSplitCore_no_occurrence {sep : List Char} (s : List Char)
    (h : containsSub sep s = false) : jsSplitCore sep s 0 = [s] := by
  induction s with
  | nil =>
    cases sep with
    | nil => simp [containsSub, startsWith] at h
    | cons p ps => rfl
  | cons c rest ih =>
    obtain ⟨h1, h2⟩ := containsSub_cons_false h
    rw [jsSplitCore, if_neg (by simp [h1]), ih h2]

theorem jsSplitCore_sep_front (sep rest : List Char) (hne : sep ≠ []) :
    jsSplitCore sep (sep ++ rest) 0 = [] :: jsSplitCore sep rest 0 := by
  cases sep with
  | nil => exact absurd rfl hne
  | cons p ps =>
    rw [List.cons_append, jsSplitCore,
      if_pos (by simpa using startsWith_append_self (p :: ps) rest)]
    simpa using jsSplitCore_skip (p :: ps) ps rest

theorem jsSplitCore_single_chunk {c : Char} {t : List Char} (r : List Char)
    (ht : containsSub [c] t = false) :
    jsSplitCore [c] (t ++ c :: r) 0 = t :: jsSplitCore [c] r 0 := by
  induction t with
  | nil =>
    rw [List.nil_append, jsSplitCore, if_pos (by simp [startsWith])]
    rfl
  | cons a t ih =>
    obtain ⟨h1, h2⟩ := containsSub_cons_false ht
    have ha : (a == c) = false := by
      simpa [startsWith] using h1
    rw [List.cons_append, jsSplitCore, if_neg (by simp [startsWith, ha]), ih h2]

theorem jsSplit_of_ne_nil {sep : List Char} (s : List Char) (h : sep ≠ []) :
    jsSplit s sep = jsSplitCore sep s 0 := by
  cases sep with
  | nil => exact absurd rfl h
  | cons p ps => rfl

theorem head?_append_some {α : Type} {l l' : List α} {o : α} (h : l.head? = some o) :
    (l ++ l').head? = some o := by
  cases l with
  | nil => simp at h
  | cons a l => simpa using h

theorem settleCalls_append (a b : List WsEvent) :
    settleCalls (a ++ b) = settleCalls a ++ settleCalls b := by
  simp [settleCalls]

/-! ### Concrete fixtures -/

/-- The reference inbound reply named in the source comment and the
spec. -/
def exampleReply : List Char := ("[\"session\",[10334,1441,0.001,7400,1],null]").data

/-- A fully-configured environment with a login that succeeds. -/
def envOK : AuthEnv :=
  { chargerID := some "CHG1", email := some "user@example.com",
    password := some "pw", loginReply := some "tok123" }

/-- An environment with no charger id configured. -/
def envNoCharger : AuthEnv :=
  { chargerID := none, email := some "user@example.com",
    password := some "pw", loginReply := some "tok123" }

/-- An environment with a charger id but no credentials, whose login
call fails. -/
def envNoCreds : AuthEnv :=
  { chargerID := some "CHG1", email := none, password := none, loginReply := none }

/-! ### Claims -/

/-- Claim C1, counterexample: on the reply
`["session",[10334,1441,0.001,7400,1],null]` the energy figure the
handler computes is NaN, not 1441/1000 = 1.441: the regex capture runs
from the outer `[` only up to the first `]`, so the field at index 1
of the comma-split is `[10334`, which `Number` maps to NaN.  The
resolution is a bare success carrying no energy value. -/
theorem claim1_counterexample :
    energyOf exampleReply = some JSNum.nan ∧
    JSNum.nan ≠ JSNum.num (mkRat 1441 1000) ∧
    (messageHandler exampleReply).2 = some ChargeOutcome.success := by
  refine ⟨by decide, by decide, by decide⟩

/-- Claim C1, amended: on the inbound reply
`["session",[10334,1441,0.001,7400,1],null]` the handler logs the raw
reply and an energy figure of NaN (the capture stops at the first `]`,
making field 1 the non-numeric `[10334`), and resolves success
carrying no value. -/
theorem claim1_amended :
    messageHandler exampleReply =
      ([LogLine.response exampleReply, LogLine.energy JSNum.nan],
        some ChargeOutcome.success) := by
  decide

/-- Claim C2: with a cached (truthy) session token `authorizeCharging`
performs zero login calls and opens the socket with the cached token;
with no cached token, configured credentials and a successful login it
performs exactly one login call followed by exactly one socket-open,
in that order, and caches the obtained token. -/
theorem claim2_login_policy (env : AuthEnv) (saved : Option String) :
    (jsFalsy saved = false →
      (authorizeCharging env saved).actions = [AuthAction.openSocket saved] ∧
      (authorizeCharging env saved).newSaved = saved) ∧
    (∀ tok : String, jsFalsy saved = true → jsFalsy env.email = false →
      jsFalsy env.password = false → env.loginReply = some tok →
      (authorizeCharging env saved).actions =
        [AuthAction.login, AuthAction.openSocket (some tok)] ∧
      (authorizeCharging env saved).newSaved = some tok) := by
  constructor
  · intro h
    simp [authorizeCharging, h]
  · intro tok h he hp hr
    simp [authorizeCharging, h, hr]

/-- Claim C2, witness at a concrete environment. -/
theorem claim2_login_policy_witness :
    (authorizeCharging envOK (some "sess")).actions =
      [AuthAction.openSocket (some "sess")] ∧
    (authorizeCharging envOK none).actions =
      [AuthAction.login, AuthAction.openSocket (some "tok123")] ∧
    (authorizeCharging envOK none).newSaved = some "tok123" := by
  refine ⟨((claim2_login_policy envOK (some "sess")).1 (by decide)).1, ?_, ?_⟩
  · exact ((claim2_login_policy envOK none).2 "tok123" (by decide) (by decide)
      (by decide) rfl).1
  · exact ((claim2_login_policy envOK none).2 "tok123" (by decide) (by decide)
      (by decide) rfl).2

/-- Claim C3: if nothing has settled the promise before the 40-second
timer fires, the system force-closes the socket with the
normal-closure code 1000 and the run settles with the timeout
failure. -/
theorem claim3_timeout (env : AuthEnv) (saved : Option String) (pre : List WsEvent)
    (h : fullRun env saved pre = none) :
    fullRun env saved (timerFire pre) = some ChargeOutcome.timedOut ∧
    timeoutCloseCode = 1000 := by
  have hs : (authorizeCharging env saved).settles ++ settleCalls pre = [] := by
    cases habs : (authorizeCharging env saved).settles ++ settleCalls pre with
    | nil => rfl
    | cons a l =>
      unfold fullRun at h
      rw [habs] at h
      simp at h
  refine ⟨?_, rfl⟩
  unfold fullRun timerFire
  rw [settleCalls_append, ← List.append_assoc, hs]
  rfl

/-- Claim C3, witness: a run whose only pre-timeout event is a
successful open times out with the normal-closure code. -/
theorem claim3_timeout_witness :
    fullRun envOK (some "sess") (timerFire [WsEvent.connOpen true]) =
      some ChargeOutcome.timedOut ∧
    timeoutCloseCode = 1000 :=
  claim3_timeout envOK (some "sess") [WsEvent.connOpen true] (by decide)

/-- Claim C4, counterexample: a close event with the normal-closure
code 1000 arriving before any message settles the promise with the
timeout failure, not with `UnexpectedClosure` as the claim states. -/
theorem claim4_counterexample :
    fullRun envOK (some "sess") [WsEvent.closeEvt 1000] = some ChargeOutcome.timedOut ∧
    ChargeOutcome.timedOut ≠ ChargeOutcome.unexpectedClosure := by
  refine ⟨by decide, by decide⟩

/-- Claim C4, amended: a close event arriving before anything has
settled the promise always settles it with a failure: with
`UnexpectedClosure` for any non-normal code, but with the timeout
failure for the normal-closure code 1000 (normal closure without a
reply is still never treated as success). -/
theorem claim4_amended (env : AuthEnv) (saved : Option String) (pre : List WsEvent)
    (code : Nat) (h : fullRun env saved pre = none) :
    fullRun env saved (pre ++ [WsEvent.closeEvt code]) =
      some (if code = 1000 then ChargeOutcome.timedOut
        else ChargeOutcome.unexpectedClosure) := by
  have hs : (authorizeCharging env saved).settles ++ settleCalls pre = [] := by
    cases habs : (authorizeCharging env saved).settles ++ settleCalls pre with
    | nil => rfl
    | cons a l =>
      unfold fullRun at h
      rw [habs] at h
      simp at h
  unfold fullRun
  rw [settleCalls_append, ← List.append_assoc, hs]
  by_cases hc : code = 1000 <;> simp [settleCalls, handleEvent, hc]

/-- Claim C4, amended, witness: a close with code 1006 before any
reply settles the promise with `UnexpectedClosure`. -/
theorem claim4_amended_witness :
    fullRun envOK (some "sess") [WsEvent.closeEvt 1006] =
      some ChargeOutcome.unexpectedClosure := by
  have h := claim4_amended envOK (some "sess") [] 1006 (by decide)
  simpa using h

/-- Claim C5: when the first `Set-Cookie` header containing
`manix-sess` has the form `manix-sess=<token>;<rest>` (the token free
of `;`, the tail free of further `manix-sess=` occurrences, earlier
headers free of `manix-sess`), login returns exactly the substring
between `manix-sess=` and the next `;`. -/
theorem claim5_token_extraction (pre post : List (List Char)) (t r : List Char)
    (hpre : ∀ c ∈ pre, containsSub mSess c = false)
    (ht : containsSub [';'] t = false)
    (hno : containsSub mSessEq (t ++ ';' :: r) = false) :
    obtainGigachargerSessionID (pre ++ (mSessEq ++ t ++ ';' :: r) :: post) =
      LoginResult.ok t := by
  have hcookie : containsSub mSess (mSessEq ++ t ++ ';' :: r) = true := by
    apply containsSub_of_startsWith
    have heq : mSessEq ++ t ++ ';' :: r = mSess ++ ('=' :: (t ++ ';' :: r)) := by
      have h0 : mSessEq = mSess ++ ['='] := by decide
      simp [h0]
    rw [heq]
    exact startsWith_append_self _ _
  have hfind : ∀ pr : List (List Char), (∀ c ∈ pr, containsSub mSess c = false) →
      List.find? (fun c => containsSub mSess c)
        (pr ++ (mSessEq ++ t ++ ';' :: r) :: post) = some (mSessEq ++ t ++ ';' :: r) := by
    intro pr
    induction pr with
    | nil =>
      intro _
      exact List.find?_cons_of_pos _ hcookie
    | cons c cs ih =>
      intro hpr
      rw [List.cons_append, List.find?_cons_of_neg _ (by simp [hpr c (by simp)])]
      exact ih (fun d hd => hpr d (by simp [hd]))
  have hsplit : jsSplit (mSessEq ++ t ++ ';' :: r) mSessEq = [[], t ++ ';' :: r] := by
    rw [jsSplit_of_ne_nil _ (show mSessEq ≠ [] by decide), List.append_assoc,
      jsSplitCore_sep_front mSessEq (t ++ ';' :: r) (by decide),
      jsSplitCore_no_occurrence _ hno]
  have hsplit2 : jsSplit (t ++ ';' :: r) [';'] = t :: jsSplitCore [';'] r 0 := by
    rw [jsSplit_of_ne_nil _ (by simp)]
    exact jsSplitCore_single_chunk r ht
  unfold obtainGigachargerSessionID
  rw [hfind pre hpre]
  simp only [hsplit, hsplit2, List.headD_cons]

/-- Claim C5, witness at a concrete two-header response. -/
theorem claim5_token_extraction_witness :
    obtainGigachargerSessionID
      [("other=1; Path=/").data, ("manix-sess=abc123; Path=/; HttpOnly").data] =
      LoginResult.ok (("abc123").data) := by
  have h := claim5_token_extraction [("other=1; Path=/").data] []
    (("abc123").data) ((" Path=/; HttpOnly").data)
    (by decide) (by decide) (by decide)
  have e : mSessEq ++ ("abc123").data ++ ';' :: (" Path=/; HttpOnly").data =
      ("manix-sess=abc123; Path=/; HttpOnly").data := by decide
  rw [e] at h
  exact h

/-- Claim C6: a login response none of whose cookies contains
`manix-sess` fails with the missing-cookie authentication error and
returns no token. -/
theorem claim6_missing_cookie (cookies : List (List Char))
    (h : ∀ c ∈ cookies, containsSub mSess c = false) :
    obtainGigachargerSessionID cookies =
      LoginResult.err LoginFailureKind.missingCookie := by
  have hfind : List.find? (fun c => containsSub mSess c) cookies = none :=
    List.find?_eq_none.mpr (fun x hx => by simp [h x hx])
  simp [obtainGigachargerSessionID, hfind]

/-- Claim C6, witness at a concrete cookie-free response. -/
theorem claim6_missing_cookie_witness :
    obtainGigachargerSessionID [("theme=dark; Path=/").data] =
      LoginResult.err LoginFailureKind.missingCookie :=
  claim6_missing_cookie [("theme=dark; Path=/").data] (by decide)

/-- Claim C7: over any event trace the charge command is sent exactly
once per connection-open event and nothing else is ever sent; the
frame is exactly `["drain/start","<chargerID>"]`. -/
theorem claim7_send_exactly_once (cid : Option String) (events : List WsEvent) :
    allSends cid events =
      List.replicate (events.countP isOpenEvt) (chargeCommand cid) ∧
    chargeCommand cid = "[\"drain/start\",\"" ++ jsStr cid ++ "\"]" := by
  refine ⟨?_, rfl⟩
  induction events with
  | nil => rfl
  | cons e es ih =>
    cases e with
    | connOpen sendOk =>
      simp [allSends, eventSends, List.countP_cons, isOpenEvt, List.replicate_succ, ih]
    | message data =>
      simp [allSends, eventSends, List.countP_cons, isOpenEvt, ih]
    | errorEvt =>
      simp [allSends, eventSends, List.countP_cons, isOpenEvt, ih]
    | closeEvt code =>
      simp [allSends, eventSends, List.countP_cons, isOpenEvt, ih]

/-- Claim C8: the promise settles exactly once: once an event sequence
has settled it with some outcome, any further events (extra messages,
late closes) leave the settlement unchanged. -/
theorem claim8_first_settlement_wins (env : AuthEnv) (saved : Option String)
    (es extra : List WsEvent) (o : ChargeOutcome)
    (h : fullRun env saved es = some o) :
    fullRun env saved (es ++ extra) = some o := by
  unfold fullRun at h ⊢
  rw [settleCalls_append, ← List.append_assoc]
  exact head?_append_some h

/-- Claim C8, witness: a resolved run is unaffected by a late abnormal
close. -/
theorem claim8_first_settlement_wins_witness :
    fullRun envOK (some "sess")
      ([WsEvent.message (("ok").data)] ++ [WsEvent.closeEvt 1006]) =
      some ChargeOutcome.success :=
  claim8_first_settlement_wins envOK (some "sess")
    [WsEvent.message (("ok").data)] [WsEvent.closeEvt 1006]
    ChargeOutcome.success (by decide)

/-- Claim C9, counterexample: with no charger id configured the
promise does reject with the configuration error, but the invocation
still performs further work afterwards (the login call and the
socket-open both happen), refuting "no further work performed". -/
theorem claim9_counterexample :
    fullRun envNoCharger none [] = some ChargeOutcome.noChargerID ∧
    (authorizeCharging envNoCharger none).actions =
      [AuthAction.login, AuthAction.openSocket (some "tok123")] := by
  refine ⟨by decide, by decide⟩

/-- Claim C9, amended: the promise settles with the configuration
error whenever the charger id is falsy, and with the credential error
whenever the charger id is present but no cached token exists and a
credential is falsy; no retry is performed, but (missing `return`
after `reject`) the invocation continues working after the
rejection. -/
theorem claim9_amended (env : AuthEnv) (saved : Option String) (events : List WsEvent) :
    (jsFalsy env.chargerID = true →
      fullRun env saved events = some ChargeOutcome.noChargerID) ∧
    (jsFalsy env.chargerID = false → jsFalsy saved = true →
      (jsFalsy env.email || jsFalsy env.password) = true →
      fullRun env saved events = some ChargeOutcome.noCredentials) := by
  constructor
  · intro h
    have : ∃ rest, (authorizeCharging env saved).settles =
        ChargeOutcome.noChargerID :: rest := by
      unfold authorizeCharging
      by_cases hs : jsFalsy saved
      · cases hr : env.loginReply <;> simp [hs, hr, h]
      · simp [hs, h]
    obtain ⟨rest, hrest⟩ := this
    unfold fullRun
    rw [hrest]
    rfl
  · intro h hs hc
    have : ∃ rest, (authorizeCharging env saved).settles =
        ChargeOutcome.noCredentials :: rest := by
      unfold authorizeCharging
      cases hr : env.loginReply <;> simp [hs, hr, h, hc]
    obtain ⟨rest, hrest⟩ := this
    unfold fullRun
    rw [hrest]
    rfl

/-- Claim C9, amended, witness at the two concrete environments. -/
theorem claim9_amended_witness :
    fullRun envNoCharger none [] = some ChargeOutcome.noChargerID ∧
    fullRun envNoCreds none [] = some ChargeOutcome.noCredentials :=
  ⟨(claim9_amended envNoCharger none []).1 (by decide),
   (claim9_amended envNoCreds none []).2 (by decide) (by decide) (by decide)⟩

/-- Claim C10: every inbound message, matching the bracket grammar or
not, resolves the promise with a bare success; the computed energy
figure goes only to the log, and the success carries no energy
value. -/
theorem claim10_success_regardless (data : List Char) :
    (messageHandler data).2 = some ChargeOutcome.success ∧
    (messageHandler data).1 = LogLine.response data ::
      (match energyOf data with
       | some v => [LogLine.energy v]
       | none => []) := by
  exact ⟨rfl, rfl⟩

end Giga

